import Mathlib

/-!
Shallow embedding of `src/env/simulated.rs` from the io-providers crate:
the `SimulatedEnv` in-memory environment provider and its implementation
of the `Env` trait, together with theorems settling the spec claims.
-/

/-- Filesystem paths (`std::path::PathBuf` / `&FsPath`), modelled by their
string content; `PathBuf::from(path.as_ref())` preserves that content. -/
abbrev FsPath := String

/-- Platform-native byte strings (`std::ffi::OsString`), modelled as lists
of bytes. -/
abbrev OsString := List Nat

/-- Values of `std::io::Error` (the recoverable `EnvironmentError` tier),
modelled abstractly by a message. -/
abbrev IoError := String

/-- Outcome of a Rust call that may abort via `Option::expect`: either a
panic carrying the diagnostic message, or a returned value. -/
inductive PanicOr (α : Type) where
  | panic (msg : String)
  | value (a : α)
  deriving DecidableEq

/-- The `SimulatedEnv` struct: four independently optional fields
(`args`, `args_os`, `current_dir`, `current_exe`). -/
structure SimulatedEnv where
  args : Option (List String)
  args_os : Option (List OsString)
  current_dir : Option FsPath
  current_exe : Option FsPath
  deriving DecidableEq

/-- `SimulatedEnv::new()`: every field explicitly `None`. -/
def SimulatedEnv.new : SimulatedEnv :=
  { args := none, args_os := none, current_dir := none, current_exe := none }

/-- `#[derive(Default)]` on `SimulatedEnv`: Rust derives `Default`
field-wise, and `Option::default()` is `None` for each field. -/
def SimulatedEnv.default : SimulatedEnv :=
  { args := none, args_os := none, current_dir := none, current_exe := none }

/-- `SimulatedEnv::set_args`: `self.args = Some(args)`. -/
def SimulatedEnv.set_args (self : SimulatedEnv) (args : List String) : SimulatedEnv :=
  { self with args := some args }

/-- `SimulatedEnv::set_args_os`: `self.args_os = Some(args)`. -/
def SimulatedEnv.set_args_os (self : SimulatedEnv) (args : List OsString) : SimulatedEnv :=
  { self with args_os := some args }

/-- `SimulatedEnv::set_current_exe`: the source assigns
`self.current_dir = Some(PathBuf::from(path.as_ref()))`, i.e. it writes
the working-directory field, not the executable-path field. -/
def SimulatedEnv.set_current_exe (self : SimulatedEnv) (path : FsPath) : SimulatedEnv :=
  { self with current_dir := some path }

/-- `<SimulatedEnv as Env>::args`: clones the stored vector and turns it
into an iterator; the iterator is modelled by the list of the elements it
yields, in order. Panics via `expect` when unset. -/
def Env.args (self : SimulatedEnv) : PanicOr (List String) :=
  match self.args with
  | some v => .value v
  | none => .panic "Env::args() was called before a simulated value was set"

/-- `<SimulatedEnv as Env>::args_os`: as `args`, over `OsString`s. -/
def Env.args_os (self : SimulatedEnv) : PanicOr (List OsString) :=
  match self.args_os with
  | some v => .value v
  | none => .panic "Env::args_os() was called before a simulated value was set"

/-- `<SimulatedEnv as Env>::current_dir`: `Ok(self.current_dir.clone().expect(..))`. -/
def Env.current_dir (self : SimulatedEnv) : PanicOr (Except IoError FsPath) :=
  match self.current_dir with
  | some p => .value (.ok p)
  | none => .panic "Env::current_dir() was called before a simulated value was set"

/-- `<SimulatedEnv as Env>::current_exe`: `Ok(self.current_exe.clone().expect(..))`. -/
def Env.current_exe (self : SimulatedEnv) : PanicOr (Except IoError FsPath) :=
  match self.current_exe with
  | some p => .value (.ok p)
  | none => .panic "Env::current_exe() was called before a simulated value was set"

/-- `<SimulatedEnv as Env>::set_current_dir`: stores the path and returns
`Ok(())`; the mutated receiver is returned explicitly. -/
def Env.set_current_dir (self : SimulatedEnv) (path : FsPath) :
    SimulatedEnv × Except IoError Unit :=
  ({ self with current_dir := some path }, .ok ())

/-- The operations a client can perform on a `SimulatedEnv`. -/
inductive Op where
  | set_args (v : List String)
  | set_args_os (v : List OsString)
  | set_current_exe (p : FsPath)
  | set_current_dir (p : FsPath)
  | read_args
  | read_args_os
  | read_current_dir
  | read_current_exe

/-- The observable result of one operation. -/
inductive Output where
  | unit
  | ioUnit (r : Except IoError Unit)
  | strs (r : PanicOr (List String))
  | oss (r : PanicOr (List OsString))
  | ioPath (r : PanicOr (Except IoError FsPath))

/-- Small-step semantics: each operation maps the state to the successor
state together with its observable output. Reads take `&self` in the
source and therefore leave the state unchanged. -/
def step (e : SimulatedEnv) (op : Op) : SimulatedEnv × Output :=
  match op with
  | .set_args v => (e.set_args v, .unit)
  | .set_args_os v => (e.set_args_os v, .unit)
  | .set_current_exe p => (e.set_current_exe p, .unit)
  | .set_current_dir p =>
      ((Env.set_current_dir e p).1, .ioUnit (Env.set_current_dir e p).2)
  | .read_args => (e, .strs (Env.args e))
  | .read_args_os => (e, .oss (Env.args_os e))
  | .read_current_dir => (e, .ioPath (Env.current_dir e))
  | .read_current_exe => (e, .ioPath (Env.current_exe e))

/-- Claim C1 (code bug): evaluated at the claim's scenario. On a fresh
provider, after `set_current_exe("/foo/bar")` the code leaves the
`current_exe` field unset, so `current_exe()` panics, while
`current_dir()` returns `Ok("/foo/bar")` — the opposite of the intended
mapping the claim states. -/
theorem C1_code_eval :
    Env.current_exe (SimulatedEnv.new.set_current_exe "/foo/bar")
      = .panic "Env::current_exe() was called before a simulated value was set" ∧
    Env.current_dir (SimulatedEnv.new.set_current_exe "/foo/bar")
      = .value (.ok "/foo/bar") :=
  ⟨rfl, rfl⟩

/-- Claim C2: for every state and path `P`, `set_current_exe(P)` writes
`P` into the working-directory field and leaves the `current_exe` field
unchanged; on a fresh provider, `current_dir()` then returns `Ok(P)`. -/
theorem C2_set_current_exe_writes_current_dir (e : SimulatedEnv) (P : FsPath) :
    (e.set_current_exe P).current_dir = some P ∧
    (e.set_current_exe P).current_exe = e.current_exe ∧
    Env.current_dir (SimulatedEnv.new.set_current_exe P) = .value (.ok P) ∧
    (SimulatedEnv.new.set_current_exe P).current_exe = SimulatedEnv.new.current_exe :=
  ⟨rfl, rfl, rfl, rfl⟩

/-- Claim C3 (code bug): evaluated at the failing input. On a fresh
provider, `set_current_exe("/foo/bar")` changes a field other than its
own: `current_dir` goes from unset (where `current_dir()` panicked) to
`some "/foo/bar"` (where `current_dir()` now succeeds), violating the
frame property that each setter changes only its own field. -/
theorem C3_frame_violation_eval :
    SimulatedEnv.new.current_dir = none ∧
    (SimulatedEnv.new.set_current_exe "/foo/bar").current_dir = some "/foo/bar" ∧
    Env.current_dir SimulatedEnv.new
      = .panic "Env::current_dir() was called before a simulated value was set" ∧
    Env.current_dir (SimulatedEnv.new.set_current_exe "/foo/bar")
      = .value (.ok "/foo/bar") :=
  ⟨rfl, rfl, rfl, rfl⟩

/-- Claim C4: for every sequence `S`, after `set_args(S)` a call to
`args()` yields exactly `S` in order and leaves the state unchanged, and
a second call with no intervening setter yields the same sequence again
(each call clones the stored vector into a fresh iterator). -/
theorem C4_args_roundtrip_restartable (e : SimulatedEnv) (S : List String) :
    step (e.set_args S) .read_args = (e.set_args S, .strs (.value S)) ∧
    step (step (e.set_args S) .read_args).1 .read_args
      = (e.set_args S, .strs (.value S)) :=
  ⟨rfl, rfl⟩

/-- Claim C5: for every state and path `P`, after `set_current_dir(P)`
the call `current_dir()` returns success with exactly `P`. -/
theorem C5_set_current_dir_roundtrip (e : SimulatedEnv) (P : FsPath) :
    Env.current_dir (Env.set_current_dir e P).1 = .value (.ok P) :=
  rfl

/-- Claim C6: on a freshly constructed provider, each of `args()`,
`args_os()`, `current_dir()` and `current_exe()` panics independently
with its own diagnostic, rather than returning a value or a recoverable
error. -/
theorem C6_fresh_reads_panic :
    Env.args SimulatedEnv.new
      = .panic "Env::args() was called before a simulated value was set" ∧
    Env.args_os SimulatedEnv.new
      = .panic "Env::args_os() was called before a simulated value was set" ∧
    Env.current_dir SimulatedEnv.new
      = .panic "Env::current_dir() was called before a simulated value was set" ∧
    Env.current_exe SimulatedEnv.new
      = .panic "Env::current_exe() was called before a simulated value was set" :=
  ⟨rfl, rfl, rfl, rfl⟩

/-- Claim C7: for every sequence `S` of platform-native byte strings,
after `set_args_os(S)` the call `args_os()` yields exactly `S` in
original order. -/
theorem C7_args_os_roundtrip (e : SimulatedEnv) (S : List OsString) :
    Env.args_os (e.set_args_os S) = .value S :=
  rfl

/-- Claim C8: `set_current_dir(P)` stores `P` and always returns the
success branch, never an error; and once a field is configured, the
result-returning reads `current_dir()` and `current_exe()` return
success, never a recoverable error. -/
theorem C8_no_recoverable_errors (e : SimulatedEnv) (P : FsPath) :
    (Env.set_current_dir e P).1.current_dir = some P ∧
    (Env.set_current_dir e P).2 = Except.ok () ∧
    (∀ p, e.current_dir = some p → Env.current_dir e = .value (.ok p)) ∧
    (∀ p, e.current_exe = some p → Env.current_exe e = .value (.ok p)) := by
  refine ⟨rfl, rfl, ?_, ?_⟩ <;> intro p h <;>
    simp [Env.current_dir, Env.current_exe, h]

/-- Witness for C8 at a concrete configured state. -/
theorem C8_no_recoverable_errors_witness :
    (Env.set_current_dir (SimulatedEnv.mk none none (some "/a") (some "/b")) "/x").1.current_dir
      = some "/x" ∧
    (Env.set_current_dir (SimulatedEnv.mk none none (some "/a") (some "/b")) "/x").2
      = Except.ok () ∧
    Env.current_dir (SimulatedEnv.mk none none (some "/a") (some "/b"))
      = .value (.ok "/a") ∧
    Env.current_exe (SimulatedEnv.mk none none (some "/a") (some "/b"))
      = .value (.ok "/b") :=
  ⟨(C8_no_recoverable_errors (SimulatedEnv.mk none none (some "/a") (some "/b")) "/x").1,
   (C8_no_recoverable_errors (SimulatedEnv.mk none none (some "/a") (some "/b")) "/x").2.1,
   (C8_no_recoverable_errors (SimulatedEnv.mk none none (some "/a") (some "/b")) "/x").2.2.1
     "/a" rfl,
   (C8_no_recoverable_errors (SimulatedEnv.mk none none (some "/a") (some "/b")) "/x").2.2.2
     "/b" rfl⟩

/-- Claim C9, counterexample: `current_dir` is set to `"/a"` by its own
setter, and then changed to `"/b"` by `set_current_exe` — a setter that
is not `current_dir`'s setter — refuting that a set field's value is only
changed by that field's setter. -/
theorem C9_counterexample :
    (Env.set_current_dir SimulatedEnv.new "/a").1.current_dir = some "/a" ∧
    ((Env.set_current_dir SimulatedEnv.new "/a").1.set_current_exe "/b").current_dir
      = some "/b" ∧
    some ("/b" : FsPath) ≠ some ("/a" : FsPath) :=
  ⟨rfl, rfl, by decide⟩

/-- Claim C9 as amended: each field is written only by the setter calls
whose assignment targets it — `args` by `set_args`, `args_os` by
`set_args_os`, `current_dir` by both `set_current_dir` and (through the
copy-paste defect) `set_current_exe`, and `current_exe` by no setter at
all; the last write wins (so a repeated call with the same or a new value
overwrites); no read changes any stored field; and no operation ever
returns a field from `Set` back to `Unset`. -/
theorem C9_amended_field_discipline (e : SimulatedEnv) (v : List String)
    (w : List OsString) (p : FsPath) (op : Op) :
    ((e.set_args v).args = some v ∧
     (e.set_args_os w).args_os = some w ∧
     (Env.set_current_dir e p).1.current_dir = some p ∧
     (e.set_current_exe p).current_dir = some p) ∧
    ((step e .read_args).1 = e ∧
     (step e .read_args_os).1 = e ∧
     (step e .read_current_dir).1 = e ∧
     (step e .read_current_exe).1 = e) ∧
    ((e.set_args v).args_os = e.args_os ∧
     (e.set_args v).current_dir = e.current_dir ∧
     (e.set_args v).current_exe = e.current_exe ∧
     (e.set_args_os w).args = e.args ∧
     (e.set_args_os w).current_dir = e.current_dir ∧
     (e.set_args_os w).current_exe = e.current_exe ∧
     (Env.set_current_dir e p).1.args = e.args ∧
     (Env.set_current_dir e p).1.args_os = e.args_os ∧
     (Env.set_current_dir e p).1.current_exe = e.current_exe ∧
     (e.set_current_exe p).args = e.args ∧
     (e.set_current_exe p).args_os = e.args_os ∧
     (e.set_current_exe p).current_exe = e.current_exe) ∧
    (((step e op).1.args = e.args ∨ ∃ u, (step e op).1.args = some u) ∧
     ((step e op).1.args_os = e.args_os ∨ ∃ u, (step e op).1.args_os = some u) ∧
     ((step e op).1.current_dir = e.current_dir ∨ ∃ u, (step e op).1.current_dir = some u) ∧
     ((step e op).1.current_exe = e.current_exe ∨ ∃ u, (step e op).1.current_exe = some u)) := by
  refine ⟨⟨rfl, rfl, rfl, rfl⟩, ⟨rfl, rfl, rfl, rfl⟩,
    ⟨rfl, rfl, rfl, rfl, rfl, rfl, rfl, rfl, rfl, rfl, rfl, rfl⟩, ?_⟩
  cases op <;> refine ⟨?_, ?_, ?_, ?_⟩ <;>
    first
      | exact Or.inl rfl
      | exact Or.inr ⟨_, rfl⟩

/-- Claim C10: the derived `Default` produces exactly the same initial
state as `new()` — all four fields unset — so every read on the default
instance panics just as on `new()`. -/
theorem C10_default_eq_new :
    SimulatedEnv.default = SimulatedEnv.new ∧
    Env.args SimulatedEnv.default
      = .panic "Env::args() was called before a simulated value was set" ∧
    Env.args_os SimulatedEnv.default
      = .panic "Env::args_os() was called before a simulated value was set" ∧
    Env.current_dir SimulatedEnv.default
      = .panic "Env::current_dir() was called before a simulated value was set" ∧
    Env.current_exe SimulatedEnv.default
      = .panic "Env::current_exe() was called before a simulated value was set" :=
  ⟨rfl, rfl, rfl, rfl, rfl⟩
